import Mathlib

/-
Verification development for the Lumi voice-chat backend.

Shallow embedding of the conversation pipeline:
  - backend/src/services/stt.ts         (transcribeAudio)
  - backend/src/services/gemini.ts      (generateResponse)
  - backend/src/services/conversation.ts (initializeSession, processCompleteAudio)
  - the WebSocket gateway               (handleInit, handleCompleteAudio)
  - backend/src/utils/redis.util.ts     (pushChat / getRecentChats, as oracles)
  - the pinecone service                (searchMemory / storeVector, as oracles)

External provider calls (speech-to-text, Gemini, TTS, Redis, Pinecone) are
modelled as oracle values/functions carried in an environment record: each
oracle gives the settled outcome (`Except.ok` value or `Except.error` message)
of the corresponding awaited promise for the one turn under consideration.
Audio buffers are opaque tokens (`Nat`); base64 re-encoding at the gateway is
modelled as the identity on the token.  `Date.now()` timestamps on outbound
frames are omitted (wall-clock, irrelevant to every claim).  The
fire-and-forget `storeVectorsInBackground` call is dispatched without being
awaited in the source and its rejections are all caught and logged, so it has
no effect on the returned turn result; its Pinecone writes are not part of
the observable output modelled here.
-/

/-! ## JavaScript primitives used by the source -/

/-- JS `arr.slice(-n)`: the last `n` elements (the whole list when shorter). -/
def jsSliceLast {α : Type} (n : Nat) (l : List α) : List α :=
  l.drop (l.length - n)

/-- JS `s.split(c)` restructured as (first segment, remaining segments);
`(jsSplitAcc c l).1` is `s.split(c)[0]`. -/
def jsSplitAcc (c : Char) : List Char → List Char × List (List Char)
  | [] => ([], [])
  | x :: xs =>
    let r := jsSplitAcc c xs
    if x = c then ([], r.1 :: r.2) else (x :: r.1, r.2)

/-- JS `s.trim()`: strip leading and trailing whitespace. -/
def jsTrim (s : String) : String :=
  String.mk ((((s.data.dropWhile Char.isWhitespace).reverse.dropWhile
      Char.isWhitespace).reverse))

/-- JS truthiness of the optional `error` field of a turn result
(`undefined` and the empty string are falsy). -/
def errTruthy : Option String → Bool
  | some d => d ≠ ""
  | none => false

/-! ## redis.util.ts — Short-Term Chat Log entries -/

/-- One entry of the per-user chat log, as stored by `pushChat` and returned
by `getRecentChats` (`{ role, message }`). -/
structure ChatMsg where
  role : String
  message : String
deriving DecidableEq

/-! ## stt.ts — transcribeAudio -/

/-- An error thrown by the Google speech client: a message plus the optional
gRPC `code` property that the catch block of `transcribeAudio` inspects with
`'code' in error`. -/
structure GError where
  message : String
  code : Option Nat
deriving DecidableEq

/-- The message of the error re-thrown by `transcribeAudio`'s catch block:
code 16 / 3 / 8 get dedicated messages, any other code gets
`Google Cloud error: ...` (with `|| 'Unknown error'` for an empty message),
and a code-less error — including the internally thrown
`Audio buffer is empty` — becomes `Failed to transcribe audio`. -/
def sttErrorMessage (e : GError) : String :=
  match e.code with
  | some 16 => "Google Cloud authentication failed. Check your credentials."
  | some 3 => "Invalid audio format or configuration."
  | some 8 => "Google Cloud quota exceeded."
  | some _ =>
      "Google Cloud error: " ++ (if e.message = "" then "Unknown error" else e.message)
  | none => "Failed to transcribe audio"

/-- `transcribeAudio(audioBuffer)`.  `audioLen` is `audioBuffer.length`;
`recognize` is the settled outcome of `client.recognize(request)`, already
projected to the per-result `alternatives[0].transcript` strings (an empty
list models a response with no results, which the source maps to `""`).
An empty buffer throws `Audio buffer is empty` inside the function's own try
block; that error carries no `code`, so the catch re-throws
`Failed to transcribe audio`.  A buffer under 1000 bytes returns `""`.
Otherwise the recognizer's transcripts are joined with spaces and trimmed,
and a recognizer error is re-thrown via `sttErrorMessage`. -/
def transcribeAudio (audioLen : Nat) (recognize : Except GError (List String)) :
    Except String String :=
  if audioLen = 0 then
    Except.error "Failed to transcribe audio"
  else if audioLen < 1000 then
    Except.ok ""
  else
    match recognize with
    | Except.ok parts => Except.ok (jsTrim (String.intercalate " " parts))
    | Except.error e => Except.error (sttErrorMessage e)

/-! ## gemini.ts — generateResponse -/

/-- The fixed fallback sentences returned when the Gemini call rejects. -/
def fallbackResponses : List String :=
  ["I understand what you're saying.",
   "That's interesting, tell me more.",
   "I see your point.",
   "Thanks for sharing that with me.",
   "I'm listening."]

/-- The source's single-sentence normalization:
`response.includes('.') ? response.split('.')[0] + '.' : response`. -/
def normalizeResponse (s : String) : String :=
  if s.data.contains '.' then String.mk ((jsSplitAcc '.' s.data).1 ++ ['.'])
  else s

/-- The system prompt prepended to every generation request. -/
def geminiSystemPrompt : String :=
  "You’re an AI friend chatting naturally with the user—keep it friendly, match their tone, sound casual and human, and always end with a question to keep the conversation going; aim for a 8-10 second reply time, give or take. Ask a trailing question always."

/-- `fullPrompt` as assembled in `generateResponse`: system prompt, the last
5 context items (`context.slice(-5)`) joined by newlines, then the user
message. -/
def fullPrompt (context : List String) (userMessage : String) : String :=
  geminiSystemPrompt ++ "\n\nContext: " ++
    String.intercalate "\n" (jsSliceLast 5 context) ++ "\n\nUser: " ++ userMessage

/-- The timeout scheduled in `generateResponse`
(`setTimeout(() => controller.abort(), 15000)`). -/
def GEMINI_TIMEOUT_MS : Nat := 15000

/-- The Gemini provider as seen through `chat.sendMessage(prompt)`: for each
prompt, the settled `result.response.text()` (or a rejection), and the time
in milliseconds the call takes to settle.  The source creates an
`AbortController` and schedules `controller.abort()` after
`GEMINI_TIMEOUT_MS`, but the controller's signal is never attached to
`startChat`/`sendMessage`, so the elapsed time has no influence on the
outcome — `generateResponse` below therefore never reads `sendDuration`,
mirroring the source. -/
structure GeminiProvider where
  send : String → Except String String
  sendDuration : String → Nat

/-- `generateResponse(context, userMessage)`.  `rand` models the value of
`Math.floor(Math.random() * fallbackResponses.length)` (the source never
reduces it modulo the length; any JS `Math.random()` yields an index below
the length, which `% fallbackResponses.length` makes explicit).  On success
the provider text is trimmed and cut at the first sentence boundary; on any
rejection a pseudo-random canned sentence is substituted.  The scheduled
15-second abort is dead code in the source (signal never wired up), so no
branch of this definition consults `provider.sendDuration`. -/
def generateResponse (provider : GeminiProvider) (context : List String)
    (userMessage : String) (rand : Nat) : String :=
  let prompt := fullPrompt context userMessage
  match provider.send prompt with
  | Except.ok text => normalizeResponse (jsTrim text)
  | Except.error _ =>
      fallbackResponses.get ⟨rand % fallbackResponses.length, Nat.mod_lt _ (by decide)⟩

/-! ## conversation.ts — session store and pipeline -/

/-- The `Session` interface of conversation.ts. -/
structure Session where
  userId : String
  friendId : String
  context : List String
deriving DecidableEq

/-- The module-level `sessions` map, as a key → session lookup. -/
def SessionStore : Type := String → Option Session

/-- `sessions.set(key, s)`. -/
def setStore (store : SessionStore) (k : String) (s : Session) : SessionStore :=
  fun q => if q = k then some s else store q

/-- The context pre-loaded by `initializeSession`: the `getRecentChats`
entries mapped to `role: message` strings, or `[]` when the Redis read
rejects (the catch block). -/
def seedContext (recent : Except String (List ChatMsg)) : List String :=
  match recent with
  | Except.ok msgs => msgs.map (fun m => m.role ++ ": " ++ m.message)
  | Except.error _ => []

/-- `initializeSession(userId, friendId)`.  Computes `sessionId`, seeds a
context from the chat log (empty on failure), and unconditionally
`sessions.set`s a fresh Session under the key — an existing Session for the
same key is replaced, not returned. -/
def initializeSession (store : SessionStore) (userId friendId : String)
    (recent : Except String (List ChatMsg)) : String × SessionStore :=
  let sessionId := userId ++ "-" ++ friendId
  let context := seedContext recent
  (sessionId, setStore store sessionId ⟨userId, friendId, context⟩)

/-- `cleanupSession(userId, friendId)`: delete the map entry. -/
def cleanupSession (store : SessionStore) (userId friendId : String) : SessionStore :=
  fun q => if q = userId ++ "-" ++ friendId then none else store q

/-- Step 7 of `processCompleteAudio`:
`[...session.context, "user: t", "ai: r"].slice(-10)`. -/
def updateContext (ctx : List String) (transcript aiResponse : String) : List String :=
  jsSliceLast 10 (ctx ++ ["user: " ++ transcript, "ai: " ++ aiResponse])

/-- The object returned by `processCompleteAudio`
(`audioBuffer` is `null`able, `error` present only on the catch path). -/
structure TurnResult where
  response : String
  transcript : String
  audioBuffer : Option Nat
  error : Option String
deriving DecidableEq

/-- The apology returned when the transcript is empty. -/
def didntCatchMessage : String :=
  "I didn't catch that. Could you please try again?"

/-- The apology returned by the catch-all error path. -/
def troubleMessage : String :=
  "I'm having trouble processing your audio right now. Please try again."

/-- `.catch(() => null)` around `synthesizeSpeech`. -/
def jsCatchNull (r : Except String Nat) : Option Nat :=
  match r with
  | Except.ok b => some b
  | Except.error _ => none

/-- The settled outcomes of every external call awaited during one
invocation of `processCompleteAudio`:
  - `audioLen`     — `audioBuffer.length`;
  - `recognize`    — the speech recognizer (see `transcribeAudio`);
  - `recentChats`  — `getRecentChats`, used only when the session is absent;
  - `pushUserChat` — `pushChat(userId, "user", transcript)` (step 2, not
                     wrapped in a catch by the source);
  - `embeddingRes` — `getEmbedding(transcript)` before its `.catch` → `[]`;
  - `searchMem`    — `searchMemory(userId, vector)` as a function of its two
                     arguments, before its `.catch` → `[]` (Pinecone match
                     metadata texts may be `undefined`, hence `Option`);
  - `provider`     — the Gemini call (see `generateResponse`) plus `genRand`
                     for the fallback index;
  - `pushAiChat`   — `pushChat(userId, "ai", aiResponse)`; the source
                     attaches `.catch` and discards the slot of
                     `Promise.all`, so its outcome cannot reach the result;
  - `tts`          — `synthesizeSpeech` per input text, before the
                     call sites' `.catch(() => null)`. -/
structure Env where
  audioLen : Nat
  recognize : Except GError (List String)
  recentChats : Except String (List ChatMsg)
  pushUserChat : Except String Unit
  embeddingRes : Except String (List Int)
  searchMem : String → List Int → Except String (List (Option String))
  provider : GeminiProvider
  genRand : Nat
  pushAiChat : Except String Unit
  tts : String → Except String Nat

/-- `processCompleteAudio(audioBuffer, userId, friendId)`.  Returns the turn
result together with the updated sessions map.  Paths, exactly as in the
source:
  - missing session → `initializeSession` then re-`get` (step 0);
  - transcription throws → catch-all result (apology, empty transcript,
    best-effort apology audio, `error` set), session context untouched;
  - empty/blank transcript → "didn't catch that" result, no `error` field;
  - `pushChat(user, transcript)` rejects → the rejection is NOT caught
    locally, so it propagates to the catch-all (same shape as above);
  - otherwise: embedding and memory search settle (each degraded to `[]` by
    its `.catch`), context is composed and filtered to strings, Gemini
    replies (or a fallback is substituted inside `generateResponse`), TTS is
    degraded to `null` on failure, the AI chat-log push outcome is ignored,
    the background vector store has no observable effect, and step 7 updates
    the session context through `updateContext`. -/
def processCompleteAudio (env : Env) (store : SessionStore)
    (userId friendId : String) : TurnResult × SessionStore :=
  let sessionId := userId ++ "-" ++ friendId
  let sessAndStore : Session × SessionStore :=
    match store sessionId with
    | some s => (s, store)
    | none =>
        (⟨userId, friendId, seedContext env.recentChats⟩,
         (initializeSession store userId friendId env.recentChats).2)
  let session := sessAndStore.1
  let store1 := sessAndStore.2
  match transcribeAudio env.audioLen env.recognize with
  | Except.error e =>
      ({ response := troubleMessage, transcript := "",
         audioBuffer := jsCatchNull (env.tts troubleMessage),
         error := some e }, store1)
  | Except.ok transcript =>
      if transcript = "" ∨ jsTrim transcript = "" then
        ({ response := didntCatchMessage, transcript := "",
           audioBuffer := jsCatchNull (env.tts didntCatchMessage),
           error := none }, store1)
      else
        match env.pushUserChat with
        | Except.error e =>
            ({ response := troubleMessage, transcript := "",
               audioBuffer := jsCatchNull (env.tts troubleMessage),
               error := some e }, store1)
        | Except.ok _ =>
            let longTermMemory : List (Option String) :=
              match env.searchMem userId [] with
              | Except.ok l => l
              | Except.error _ => []
            let enhancedContext : List String :=
              ((session.context.map some) ++ longTermMemory ++
                [some ("user: " ++ transcript)]).filterMap id
            let aiResponse :=
              generateResponse env.provider enhancedContext transcript env.genRand
            let audioResponseBuffer := jsCatchNull (env.tts aiResponse)
            let newContext := updateContext session.context transcript aiResponse
            let store2 := setStore store1 sessionId { session with context := newContext }
            ({ response := aiResponse, transcript := transcript,
               audioBuffer := audioResponseBuffer, error := none }, store2)

/-! ## WebSocket gateway -/

/-- The per-connection `ClientSession` of the gateway. -/
structure ClientSession where
  userId : String
  friendId : String
  sessionId : Option String
  isProcessing : Bool
deriving DecidableEq

/-- Outbound frames.  `Date.now()` timestamps are omitted; the base64
re-encoding of the audio buffer is the identity on the opaque token. -/
inductive Frame where
  | ready (message : String) (sessionId : Option String)
  | processing (message : String)
  | response (text : String) (transcript : String) (audioBuffer : Option Nat)
  | error (message : String) (details : Option String)
deriving DecidableEq

/-- The observable outcome of one `handleCompleteAudio` dispatch: the
connection's session entry afterwards, the frames sent, and whether
`processCompleteAudio` was invoked. -/
structure GatewayOut where
  session : Option ClientSession
  frames : List Frame
  pipelineInvoked : Bool
deriving DecidableEq

/-- Error message for `audio` without a prior `init`. -/
def notInitializedMessage : String :=
  "Session not initialized. Please send init message first."

/-- Error message for `audio` while a turn is already in flight. -/
def alreadyProcessingMessage : String :=
  "Already processing audio. Please wait for current request to complete."

/-- `handleCompleteAudio(ws, message)`.  `sess` is `sessions.get(ws)` for
this connection; `pipeline` is the settled outcome of
`processCompleteAudio` (an `Except.error` models an exception escaping the
pipeline, caught by the handler's own catch).  No session → "not
initialized" error, pipeline untouched.  Busy session → "already
processing" error, pipeline untouched, flag left as is (it is owned by the
in-flight turn).  Otherwise `isProcessing` is set, `processing` is emitted,
the pipeline runs, its result is framed (`result.error` truthy → error
frame, else response frame; an escaped exception → error frame), and the
`finally` block clears `isProcessing` on every one of those exit paths. -/
def handleCompleteAudio (sess : Option ClientSession)
    (pipeline : Except String TurnResult) : GatewayOut :=
  match sess with
  | none => ⟨none, [Frame.error notInitializedMessage none], false⟩
  | some s =>
      if s.isProcessing then
        ⟨some s, [Frame.error alreadyProcessingMessage none], false⟩
      else
        let tailFrames : List Frame :=
          match pipeline with
          | Except.error e => [Frame.error "Failed to process audio" (some e)]
          | Except.ok r =>
              if errTruthy r.error then
                [Frame.error "Audio processing failed" r.error]
              else
                [Frame.response r.response r.transcript r.audioBuffer]
        ⟨some { s with isProcessing := false },
         Frame.processing "Processing your audio..." :: tailFrames, true⟩

/-- `handleInit(ws, message)`: missing ids → error frame, no session
association; otherwise `initializeSession` runs (it cannot reject: its only
await is wrapped in a try/catch) and the connection is associated with a
fresh non-busy `ClientSession`. -/
def handleInit (sess : Option ClientSession) (userId friendId : String)
    (store : SessionStore) (recent : Except String (List ChatMsg)) :
    Option ClientSession × SessionStore × List Frame :=
  if userId = "" ∨ friendId = "" then
    (sess, store, [Frame.error "userId and friendId are required" none])
  else
    let r := initializeSession store userId friendId recent
    (some ⟨userId, friendId, some r.1, false⟩, r.2,
     [Frame.ready "Session initialized and ready to process audio" (some r.1)])

/-! ## Concrete fixtures used by witnesses and counterexamples -/

/-- An environment in which every provider call succeeds. -/
def baseEnv : Env where
  audioLen := 2000
  recognize := Except.ok ["hello there"]
  recentChats := Except.ok []
  pushUserChat := Except.ok ()
  embeddingRes := Except.ok [1]
  searchMem := fun _ v => if v = [] then Except.ok [some "memory snippet"] else Except.ok []
  provider := ⟨fun _ => Except.ok "Great. Tell me more", fun _ => 100⟩
  genRand := 0
  pushAiChat := Except.ok ()
  tts := fun _ => Except.ok 7

/-- The empty sessions map. -/
def baseStore : SessionStore := fun _ => none

/-- A sessions map already holding a session for key `u-f`. -/
def storeUF : SessionStore := setStore baseStore "u-f" ⟨"u", "f", ["seed"]⟩

/-- `baseEnv` with an empty audio buffer. -/
def envEmptyAudio : Env := { baseEnv with audioLen := 0 }

/-- `baseEnv` whose user-side chat-log append rejects. -/
def envPushFail : Env := { baseEnv with pushUserChat := Except.error "redis down" }

/-- A memory-search oracle agreeing with `baseEnv`'s on the empty query
vector but diverging on every non-empty one. -/
def searchAlt : String → List Int → Except String (List (Option String)) :=
  fun _ v => if v = [] then Except.ok [some "memory snippet"] else Except.error "different"

/-- A Gemini provider whose call settles successfully only after 20000 ms,
well past the scheduled 15000 ms abort. -/
def providerSlow : GeminiProvider :=
  ⟨fun _ => Except.ok "Hello there. How are you?", fun _ => 20000⟩

/-! ## Helper lemmas -/

theorem updateContext_length_le (ctx : List String) (t r : String) :
    (updateContext ctx t r).length ≤ 10 := by
  simp [updateContext, jsSliceLast]
  omega

theorem foldl_updateContext_le (turns : List (String × String)) (ctx : List String)
    (h : ctx.length ≤ 10) :
    (turns.foldl (fun c p => updateContext c p.1 p.2) ctx).length ≤ 10 := by
  induction turns generalizing ctx with
  | nil => simpa using h
  | cons p rest ih => exact ih _ (updateContext_length_le ctx p.1 p.2)

theorem jsSplitAcc_fst (c : Char) (l : List Char) :
    (jsSplitAcc c l).1 = l.takeWhile (fun x => x ≠ c) := by
  induction l with
  | nil => rfl
  | cons x xs ih =>
    simp only [jsSplitAcc, List.takeWhile]
    by_cases h : x = c
    · simp [h]
    · simp [h, ih]

theorem dropWhile_ne_of_contains (c : Char) (l : List Char) (h : l.contains c = true) :
    ∃ t, l.dropWhile (fun x => x ≠ c) = c :: t := by
  induction l with
  | nil => simp at h
  | cons x xs ih =>
    by_cases hx : x = c
    · exact ⟨xs, by simp [List.dropWhile, hx]⟩
    · simp only [List.contains_cons, Bool.or_eq_true, beq_iff_eq] at h
      rcases h with h | h
      · exact absurd h.symm hx
      · obtain ⟨t, ht⟩ := ih h
        refine ⟨t, ?_⟩
        simp only [List.dropWhile]
        simp [hx]
        simpa using ht

/-! ## Claim theorems -/

/-- C8: an `audio` message on a connection with no associated session (i.e.
no completed successful `init`) always yields exactly the "not initialized"
error frame, and the orchestrator pipeline is never invoked, whatever the
pipeline would have produced. -/
theorem C8_audio_before_init (pipeline : Except String TurnResult) :
    handleCompleteAudio none pipeline =
      ⟨none, [Frame.error notInitializedMessage none], false⟩ := rfl

/-- C1: if an `audio` message arrives while the session's `isProcessing`
flag is set, the gateway responds with exactly the "already processing"
error frame, leaves the session untouched and never invokes the pipeline;
and whenever the flag is clear the pipeline is invoked and, for every
pipeline outcome (response, error result, or exception), the handler leaves
the flag cleared — so a second turn can never start while one is in
flight. -/
theorem C1_busy_flag_single_flight (s : ClientSession)
    (pipeline : Except String TurnResult) :
    (s.isProcessing = true →
      handleCompleteAudio (some s) pipeline =
        ⟨some s, [Frame.error alreadyProcessingMessage none], false⟩) ∧
    (s.isProcessing = false →
      (handleCompleteAudio (some s) pipeline).session =
        some { s with isProcessing := false } ∧
      (handleCompleteAudio (some s) pipeline).pipelineInvoked = true) := by
  constructor
  · intro h
    simp [handleCompleteAudio, h]
  · intro h
    simp [handleCompleteAudio, h]

/-- C1 witness: at a concrete busy session the reject branch fires, and at a
concrete idle session with a pipeline exception the flag ends cleared. -/
theorem C1_busy_flag_single_flight_witness :
    (handleCompleteAudio (some ⟨"u", "f", some "u-f", true⟩)
        (Except.ok ⟨"hi", "t", none, none⟩) =
      ⟨some ⟨"u", "f", some "u-f", true⟩,
       [Frame.error alreadyProcessingMessage none], false⟩) ∧
    ((handleCompleteAudio (some ⟨"u", "f", some "u-f", false⟩)
        (Except.error "boom")).session = some ⟨"u", "f", some "u-f", false⟩ ∧
     (handleCompleteAudio (some ⟨"u", "f", some "u-f", false⟩)
        (Except.error "boom")).pipelineInvoked = true) :=
  ⟨(C1_busy_flag_single_flight ⟨"u", "f", some "u-f", true⟩
      (Except.ok ⟨"hi", "t", none, none⟩)).1 rfl,
   (C1_busy_flag_single_flight ⟨"u", "f", some "u-f", false⟩
      (Except.error "boom")).2 rfl⟩

/-- C2: each completed turn appends `user: transcript` and `ai: reply` to
the session context and truncates to the last 10 entries (`updateContext`,
which `processCompleteAudio` applies at step 7), so after any positive
number of completed turns — from any starting context — the recent-turn
history has at most 10 entries. -/
theorem C2_history_bounded :
    (∀ (ctx : List String) (turns : List (String × String)), turns ≠ [] →
      (turns.foldl (fun c p => updateContext c p.1 p.2) ctx).length ≤ 10) ∧
    (∀ (env : Env) (store : SessionStore) (uid fid : String) (s : Session)
        (t : String),
      store (uid ++ "-" ++ fid) = some s →
      transcribeAudio env.audioLen env.recognize = Except.ok t →
      ¬(t = "" ∨ jsTrim t = "") →
      env.pushUserChat = Except.ok () →
      ∃ r, (processCompleteAudio env store uid fid).2 (uid ++ "-" ++ fid) =
        some { s with context := updateContext s.context t r }) := by
  constructor
  · intro ctx turns h
    match turns with
    | [] => exact absurd rfl h
    | p :: rest =>
      simpa using foldl_updateContext_le rest (updateContext ctx p.1 p.2)
        (updateContext_length_le ctx p.1 p.2)
  · intro env store uid fid s t hs ht hne hp
    refine ⟨generateResponse env.provider
      (((s.context.map some) ++
        (match env.searchMem uid [] with
         | Except.ok l => l
         | Except.error _ => []) ++ [some ("user: " ++ t)]).filterMap id)
      t env.genRand, ?_⟩
    simp [processCompleteAudio, hs, ht, hne, hp, setStore]

/-- C2 witness: six concrete turns from an empty context stay within the
bound (and in fact land exactly on 10 entries), and at a concrete
environment the pipeline's own step 7 updates the stored session through
`updateContext`. -/
theorem C2_history_bounded_witness :
    ((List.foldl (fun c p => updateContext c p.1 p.2) []
        [("a", "b"), ("c", "d"), ("e", "f"), ("g", "h"), ("i", "j"), ("k", "l")]).length
      ≤ 10) ∧
    ((List.foldl (fun c p => updateContext c p.1 p.2) []
        [("a", "b"), ("c", "d"), ("e", "f"), ("g", "h"), ("i", "j"), ("k", "l")]).length
      = 10) ∧
    (∃ r, (processCompleteAudio baseEnv storeUF "u" "f").2 ("u" ++ "-" ++ "f") =
      some { userId := "u", friendId := "f",
             context := updateContext ["seed"] "hello there" r }) :=
  ⟨C2_history_bounded.1 []
      [("a", "b"), ("c", "d"), ("e", "f"), ("g", "h"), ("i", "j"), ("k", "l")]
      (by decide),
   by decide,
   C2_history_bounded.2 baseEnv storeUF "u" "f" ⟨"u", "f", ["seed"]⟩ "hello there"
      rfl rfl (by decide) rfl⟩

/-- C3: when the transcriber throws, the turn result has an empty
transcript, the fixed non-null apology text and the thrown message in its
`error` field, and the sessions map — in particular the session's
recent-turn context — is returned exactly as it was. -/
theorem C3_transcriber_error (env : Env) (store : SessionStore)
    (uid fid : String) (s : Session) (e : String)
    (hs : store (uid ++ "-" ++ fid) = some s)
    (ht : transcribeAudio env.audioLen env.recognize = Except.error e) :
    (processCompleteAudio env store uid fid).1.transcript = "" ∧
    (processCompleteAudio env store uid fid).1.response = troubleMessage ∧
    (processCompleteAudio env store uid fid).1.error = some e ∧
    (processCompleteAudio env store uid fid).2 = store := by
  refine ⟨?_, ?_, ?_, ?_⟩ <;> simp [processCompleteAudio, hs, ht]

/-- C3 witness: a concrete environment whose (empty) audio buffer makes the
transcriber throw, against a store holding a session for the key. -/
theorem C3_transcriber_error_witness :
    (processCompleteAudio envEmptyAudio storeUF "u" "f").1.transcript = "" ∧
    (processCompleteAudio envEmptyAudio storeUF "u" "f").1.response = troubleMessage ∧
    (processCompleteAudio envEmptyAudio storeUF "u" "f").1.error =
      some "Failed to transcribe audio" ∧
    (processCompleteAudio envEmptyAudio storeUF "u" "f").2 = storeUF :=
  C3_transcriber_error envEmptyAudio storeUF "u" "f" ⟨"u", "f", ["seed"]⟩
    "Failed to transcribe audio" rfl rfl

/-- C4: the 15000 ms deadline scheduled in `generateResponse` is never
enforced — the abort signal is not attached to the provider call — so a
provider call that only settles 20000 ms later (well past
`GEMINI_TIMEOUT_MS`) still has its own text returned, normalized to its
first sentence, and no canned fallback sentence is substituted. -/
theorem C4_deadline_not_enforced :
    GEMINI_TIMEOUT_MS < providerSlow.sendDuration (fullPrompt [] "hi") ∧
    generateResponse providerSlow [] "hi" 0 = "Hello there." ∧
    fallbackResponses.contains (generateResponse providerSlow [] "hi" 0) = false := by
  refine ⟨by decide, by decide, by decide⟩

/-- C5 counterexample: for an empty audio buffer the claim fails — the
result carries an `error` field and the catch-all apology, not the
"didn't catch that" reply without an error field. -/
theorem C5_counterexample :
    ¬((processCompleteAudio envEmptyAudio storeUF "u" "f").1.error = none) ∧
    ¬((processCompleteAudio envEmptyAudio storeUF "u" "f").1.response =
        didntCatchMessage) := by
  refine ⟨by decide, by decide⟩

/-- C5 (amended): audio that is non-empty but below the 1000-byte minimum
threshold short-circuits to the fixed "I didn't catch that" apology with an
empty transcript and no `error` field; an empty buffer instead makes the
transcriber throw, yielding the turn-level error result with its `error`
field set. -/
theorem C5_below_threshold_apology (env : Env) (store : SessionStore)
    (uid fid : String) :
    (0 < env.audioLen → env.audioLen < 1000 →
      (processCompleteAudio env store uid fid).1 =
        { response := didntCatchMessage, transcript := "",
          audioBuffer := jsCatchNull (env.tts didntCatchMessage),
          error := none }) ∧
    (env.audioLen = 0 →
      (processCompleteAudio env store uid fid).1 =
        { response := troubleMessage, transcript := "",
          audioBuffer := jsCatchNull (env.tts troubleMessage),
          error := some "Failed to transcribe audio" }) := by
  constructor
  · intro h0 h1
    cases hst : store (uid ++ "-" ++ fid) <;>
      simp [processCompleteAudio, hst, transcribeAudio, Nat.pos_iff_ne_zero.mp h0, h1]
  · intro h0
    cases hst : store (uid ++ "-" ++ fid) <;>
      simp [processCompleteAudio, hst, transcribeAudio, h0]

/-- C5 witness: a concrete 16-byte clip takes the apology path, and the
concrete empty clip takes the error path. -/
theorem C5_below_threshold_apology_witness :
    (processCompleteAudio { baseEnv with audioLen := 16 } storeUF "u" "f").1 =
      { response := didntCatchMessage, transcript := "",
        audioBuffer := some 7, error := none } ∧
    (processCompleteAudio envEmptyAudio storeUF "u" "f").1 =
      { response := troubleMessage, transcript := "",
        audioBuffer := some 7,
        error := some "Failed to transcribe audio" } :=
  ⟨(C5_below_threshold_apology { baseEnv with audioLen := 16 } storeUF "u" "f").1
      (by decide) (by decide),
   (C5_below_threshold_apology envEmptyAudio storeUF "u" "f").2 rfl⟩

/-- C6 counterexample: for a key that already holds a session with context
`["seed"]`, a second `initializeSession` call does not return that session
unchanged — it replaces it with a freshly re-seeded one. -/
theorem C6_counterexample :
    ¬((initializeSession storeUF "u" "f" (Except.ok [⟨"user", "x"⟩])).2 "u-f" =
        some ⟨"u", "f", ["seed"]⟩) := by
  decide

/-- C6 (amended): `initializeSession` is not idempotent — every call
installs a freshly seeded Session under the key, replacing any existing
one.  The existing Session is reused unchanged only by the get-or-create
check inside `processCompleteAudio`: when a Session already exists for the
key, the turn is entirely independent of the chat-log seed.  At most one
Session per key holds structurally, the store being a keyed map. -/
theorem C6_initialize_reseeds :
    (∀ (store : SessionStore) (uid fid : String)
        (recent : Except String (List ChatMsg)),
      (initializeSession store uid fid recent).2 (uid ++ "-" ++ fid) =
        some ⟨uid, fid, seedContext recent⟩) ∧
    (∀ (env : Env) (r' : Except String (List ChatMsg)) (store : SessionStore)
        (uid fid : String) (s : Session),
      store (uid ++ "-" ++ fid) = some s →
      processCompleteAudio { env with recentChats := r' } store uid fid =
        processCompleteAudio env store uid fid) := by
  constructor
  · intro store uid fid recent
    simp [initializeSession, setStore]
  · intro env r' store uid fid s hs
    simp [processCompleteAudio, hs]

/-- C6 witness: the fresh re-seed observed at a concrete store, and the
seed-independence of a turn on a concrete pre-existing session. -/
theorem C6_initialize_reseeds_witness :
    (initializeSession storeUF "u" "f" (Except.ok [⟨"user", "x"⟩])).2
        ("u" ++ "-" ++ "f") =
      some ⟨"u", "f", seedContext (Except.ok [⟨"user", "x"⟩])⟩ ∧
    processCompleteAudio { baseEnv with recentChats := Except.error "redis down" }
        storeUF "u" "f" =
      processCompleteAudio baseEnv storeUF "u" "f" :=
  ⟨C6_initialize_reseeds.1 storeUF "u" "f" (Except.ok [⟨"user", "x"⟩]),
   C6_initialize_reseeds.2 baseEnv (Except.error "redis down") storeUF "u" "f"
      ⟨"u", "f", ["seed"]⟩ rfl⟩

/-- C7 counterexample: with a non-empty transcript and a rejecting
user-side chat-log append, the turn is aborted — the result is the
turn-level error result, not a normal result. -/
theorem C7_counterexample :
    (processCompleteAudio envPushFail storeUF "u" "f").1.error = some "redis down" ∧
    (processCompleteAudio envPushFail storeUF "u" "f").1.response = troubleMessage ∧
    (processCompleteAudio envPushFail storeUF "u" "f").1.transcript = "" := by
  refine ⟨by decide, by decide, by decide⟩

/-- C7 (amended): a failure while appending `(user, transcript)` to the
Short-Term Chat Log is not caught locally — it propagates to the catch-all
handler and aborts the turn, producing the turn-level error result
(apology text, empty transcript, the rejection message as `error` detail)
and leaving the stored session untouched. -/
theorem C7_user_push_aborts_turn (env : Env) (store : SessionStore)
    (uid fid : String) (t e : String)
    (ht : transcribeAudio env.audioLen env.recognize = Except.ok t)
    (hne : ¬(t = "" ∨ jsTrim t = ""))
    (hp : env.pushUserChat = Except.error e) :
    (processCompleteAudio env store uid fid).1 =
      { response := troubleMessage, transcript := "",
        audioBuffer := jsCatchNull (env.tts troubleMessage),
        error := some e } ∧
    (∀ s, store (uid ++ "-" ++ fid) = some s →
      (processCompleteAudio env store uid fid).2 = store) := by
  constructor
  · cases hst : store (uid ++ "-" ++ fid) <;>
      simp [processCompleteAudio, hst, ht, hne, hp]
  · intro s hs
    simp [processCompleteAudio, hs, ht, hne, hp]

/-- C7 witness: the abort observed at a concrete environment whose user
chat-log append rejects with `redis down`. -/
theorem C7_user_push_aborts_turn_witness :
    (processCompleteAudio envPushFail storeUF "u" "f").1 =
      { response := troubleMessage, transcript := "",
        audioBuffer := some 7, error := some "redis down" } ∧
    (processCompleteAudio envPushFail storeUF "u" "f").2 = storeUF :=
  ⟨(C7_user_push_aborts_turn envPushFail storeUF "u" "f" "hello there" "redis down"
      rfl (by decide) rfl).1,
   (C7_user_push_aborts_turn envPushFail storeUF "u" "f" "hello there" "redis down"
      rfl (by decide) rfl).2 ⟨"u", "f", ["seed"]⟩ rfl⟩

/-- C9: for every reply string, the normalization applied by
`generateResponse` ends the text at the first sentence boundary — when the
string contains a period, the result is exactly the prefix up to and
including the first `.` (the part before it containing no period); when it
contains none, the string is returned verbatim. -/
theorem C9_first_sentence_normalization (s : String) :
    (s.data.contains '.' = true →
      ∃ pre rest, s.data = pre ++ '.' :: rest ∧ '.' ∉ pre ∧
        (normalizeResponse s).data = pre ++ ['.']) ∧
    (s.data.contains '.' = false → normalizeResponse s = s) := by
  constructor
  · intro h
    refine ⟨s.data.takeWhile (fun x => x ≠ '.'), ?_⟩
    obtain ⟨t, ht⟩ := dropWhile_ne_of_contains '.' s.data h
    refine ⟨t, ?_, ?_, ?_⟩
    · conv_lhs => rw [← List.takeWhile_append_dropWhile
        (p := fun x => x ≠ '.') (l := s.data)]
      rw [ht]
    · intro hm
      have := List.mem_takeWhile_imp hm
      simp at this
    · simp only [normalizeResponse, h, if_pos]
      rw [jsSplitAcc_fst]
  · intro h
    have h' : '.' ∉ s.data := by simpa using h
    simp [normalizeResponse, h']

/-- C9 witness: the theorem applied to a concrete two-sentence string. -/
theorem C9_first_sentence_normalization_witness :
    ∃ pre rest, ("Hi. There." : String).data = pre ++ '.' :: rest ∧ '.' ∉ pre ∧
      (normalizeResponse "Hi. There.").data = pre ++ ['.'] :=
  (C9_first_sentence_normalization "Hi. There.").1 (by decide)

/-- C10: the long-term memory recall inside `processCompleteAudio` is
invoked with the empty query vector only — replacing the search oracle by
any other one that agrees on empty-vector queries (while possibly differing
on every non-empty vector, in particular on the transcript's embedding)
leaves the entire turn outcome unchanged, so the recalled snippets depend
only on the `userId`, never on the content of the current utterance. -/
theorem C10_recall_uses_empty_query (env : Env)
    (g : String → List Int → Except String (List (Option String)))
    (store : SessionStore) (uid fid : String)
    (h : ∀ u, env.searchMem u [] = g u []) :
    processCompleteAudio { env with searchMem := g } store uid fid =
      processCompleteAudio env store uid fid := by
  simp only [processCompleteAudio, ← h uid]

/-- C10 witness: swapping in a concrete oracle that errors on every
non-empty query vector (but matches on the empty one) changes nothing. -/
theorem C10_recall_uses_empty_query_witness :
    processCompleteAudio { baseEnv with searchMem := searchAlt } baseStore "u" "f" =
      processCompleteAudio baseEnv baseStore "u" "f" :=
  C10_recall_uses_empty_query baseEnv searchAlt baseStore "u" "f" (fun _ => rfl)
